import Mathlib

/-!
Shallow embedding of `src/main.py` (an astrbot chat-plugin querying the
OpenWeatherMap v2.5 HTTP API).  The plugin's network layer is modelled by an
oracle type `HttpOutcome` standing for the result of one outbound HTTP GET
(`failure` = any exception raised by the request, e.g. a timeout;
`success status body` = an HTTP response, where `body = none` means the
`resp.json()` call raised on a malformed body).  Python dictionary/list
operations on the decoded JSON are modelled by partial helpers returning
`Option`: a `none` at that level stands for the exception that the Python
code would raise, which the surrounding `try/except` of each fetcher turns
into the uniform `None` ("no data") result.
-/

/-- Decoded JSON value.  Numbers are modelled as integers: no arithmetic is
performed on any JSON number by the plugin except the unix timestamp `dt`,
and every concrete value appearing in the spec is integral. -/
inductive Json where
  | null
  | bool (b : Bool)
  | num (n : Int)
  | str (s : String)
  | arr (elems : List Json)
  | obj (fields : List (String × Json))

/-- First binding of a key in a decoded JSON object (keys are unique after
Python's `json` decoding, so first = last). -/
def lookupField (fields : List (String × Json)) (k : String) : Option Json :=
  match fields with
  | [] => none
  | (k', v) :: rest => if k' = k then some v else lookupField rest k

/-- Python truthiness of a decoded JSON value (`if not x`). -/
def pyTruthy : Json → Bool
  | .null => false
  | .bool b => b
  | .num n => n != 0
  | .str s => !s.isEmpty
  | .arr xs => !xs.isEmpty
  | .obj fs => !fs.isEmpty

/-- Python `len(x)`: defined for strings, lists and dicts; raises
`TypeError` (here: `none`) otherwise. -/
def pyLen : Json → Option Nat
  | .str s => some s.length
  | .arr xs => some xs.length
  | .obj fs => some fs.length
  | _ => none

/-- Python `x.get(k, d)` — only dicts have `.get`; on any other value the
attribute access raises (here: `none`). -/
def pyGetD (j : Json) (k : String) (d : Json) : Option Json :=
  match j with
  | .obj fs => some ((lookupField fs k).getD d)
  | _ => none

/-- Python `x.get(k)` — outer `none` models the exception when `x` is not a
dict; the inner `Option` is the Python `None` returned for a missing key. -/
def pyGetOpt (j : Json) (k : String) : Option (Option Json) :=
  match j with
  | .obj fs => some (lookupField fs k)
  | _ => none

/-- Python `x[i]` for a non-negative integer index.  Succeeds only on a list
with `i` in range.  (When `x` is a string the character that Python would
return is itself subscripted with a string key at every use site, raising
one step later; collapsing that to `none` here yields the same overall
result.  On a dict, integer keys never occur in decoded JSON, so `KeyError`
is raised; on anything else, `TypeError`.) -/
def pyIndex (j : Json) (i : Nat) : Option Json :=
  match j with
  | .arr xs => xs[i]?
  | _ => none

/-- Python `x[k]` for a string key: `KeyError` (here: `none`) when missing,
`TypeError` when `x` is not a dict. -/
def pySubscript (j : Json) (k : String) : Option Json :=
  match j with
  | .obj fs => lookupField fs k
  | _ => none

/-- Outcome of one outbound HTTP GET issued by the plugin. -/
inductive HttpOutcome where
  | failure
  | success (status : Nat) (body : Option Json)

/-- The two recognized configuration options (`openweather_api_key`,
`default_city`), read once at plugin construction. -/
structure Config where
  openweather_api_key : String
  default_city : String

/-- `get_city_coords` (src/main.py:437-476): on HTTP 200 with a decodable
body, return `None` if the body is falsy, else `(data[0]["lat"],
data[0]["lon"])`; any exception or non-200 status yields `None`. -/
def get_city_coords (resp : HttpOutcome) : Option (Json × Json) :=
  match resp with
  | .failure => none
  | .success status body =>
    if status = 200 then
      match body with
      | none => none
      | some data =>
        if !pyTruthy data then none
        else
          match pyIndex data 0 with
          | none => none
          | some first =>
            match pySubscript first "lat", pySubscript first "lon" with
            | some lat, some lon => some (lat, lon)
            | _, _ => none
    else none

/-- Record returned by `get_current_weather_by_city`.  Fields read with the
one-argument `dict.get` can be the Python `None`, modelled as `Option.none`. -/
structure CurrentWeather where
  city : String
  desc : Json
  temp : Option Json
  feels_like : Option Json
  humidity : Option Json
  wind_speed : Json

/-- Field extraction of `get_current_weather_by_city` on a 200 body
(src/main.py:320-337), in source order; a `none` models the exception that
the surrounding `try/except` converts to `None`. -/
def extract_current (city : String) (data : Json) : Option CurrentWeather := do
  let main_part ← pyGetD data "main" (Json.obj [])
  let weather_arr ← pyGetD data "weather" (Json.arr [Json.obj []])
  let wind_part ← pyGetD data "wind" (Json.obj [])
  let w0 ← pyIndex weather_arr 0
  let desc ← pyGetD w0 "description" (Json.str "暂无描述")
  let temp ← pyGetOpt main_part "temp"
  let feels_like ← pyGetOpt main_part "feels_like"
  let humidity ← pyGetOpt main_part "humidity"
  let wind_speed ← pyGetD wind_part "speed" (Json.num 0)
  pure { city := city, desc := desc, temp := temp, feels_like := feels_like,
         humidity := humidity, wind_speed := wind_speed }

/-- Network calls issued by the plugin, in order of issue. -/
inductive NetCall where
  | geocoding (city : String)
  | currentWeather
  | forecastDaily

/-- `get_current_weather_by_city` (src/main.py:287-343) together with the
trace of HTTP calls it issues: the geocoding call always runs first; the
`2.5/weather` call is issued only when coordinates were obtained. -/
def get_current_weather_by_city_traced (city : String) (geo wx : HttpOutcome) :
    Option CurrentWeather × List NetCall :=
  match get_city_coords geo with
  | none => (none, [NetCall.geocoding city])
  | some _ =>
    (match wx with
     | .failure => none
     | .success status body =>
       if status = 200 then
         match body with
         | none => none
         | some data => extract_current city data
       else none,
     [NetCall.geocoding city, NetCall.currentWeather])

/-- Result component of `get_current_weather_by_city`. -/
def get_current_weather_by_city (city : String) (geo wx : HttpOutcome) :
    Option CurrentWeather :=
  (get_current_weather_by_city_traced city geo wx).1

/-- Year/month/day of the civil (proleptic Gregorian) date `z` days after
1970-01-01 (Howard Hinnant's `civil_from_days`, the arithmetic behind
`datetime.datetime.utcfromtimestamp(...).strftime("%Y-%m-%d")`). -/
def civilFromDays (z : Int) : Int × Nat × Nat :=
  let z' := z + 719468
  let era := Int.fdiv z' 146097
  let doe : Nat := (z' - era * 146097).toNat
  let yoe : Nat := (doe - doe / 1460 + doe / 36524 - doe / 146096) / 365
  let y : Int := (yoe : Int) + era * 400
  let doy : Nat := doe - (365 * yoe + yoe / 4 - yoe / 100)
  let mp : Nat := (5 * doy + 2) / 153
  let d : Nat := doy - (153 * mp + 2) / 5 + 1
  let m : Nat := if mp < 10 then mp + 3 else mp - 9
  (if m ≤ 2 then y + 1 else y, m, d)

/-- Decimal rendering of `n` left-padded with zeros to `width` digits. -/
def padNat (width : Nat) (n : Nat) : String :=
  let s := toString n
  String.mk (List.replicate (width - s.length) '0') ++ s

/-- `format_day` (src/main.py:537-546): UTC date string `yyyy-mm-dd` and the
Chinese weekday name of a unix timestamp (1970-01-01 was a 周四/Thursday;
Python `weekday()` has Monday = 0). -/
def format_day (unix_ts : Int) : String × String :=
  let days := Int.fdiv unix_ts 86400
  let ymd := civilFromDays days
  let date_str := padNat 4 ymd.1.toNat ++ "-" ++ padNat 2 ymd.2.1 ++ "-" ++ padNat 2 ymd.2.2
  let weekday := ((days + 3).emod 7).toNat
  (date_str, (["周一", "周二", "周三", "周四", "周五", "周六", "周日"].get? weekday).getD "周一")

/-- Smallest unix timestamp `datetime.datetime.utcfromtimestamp` accepts
(0001-01-01 00:00:00 UTC). -/
def minTimestamp : Int := -62135596800

/-- Largest unix timestamp `datetime.datetime.utcfromtimestamp` accepts
(9999-12-31 23:59:59 UTC). -/
def maxTimestamp : Int := 253402300799

/-- Conversion of a JSON value to the integer `utcfromtimestamp` is applied
to: numbers convert, Python booleans are integers (`True == 1`), anything
else raises `TypeError`; out-of-range values raise (`OverflowError` /
`ValueError`). -/
def pyTimestamp (j : Json) : Option Int :=
  match j with
  | .num n => if minTimestamp ≤ n ∧ n ≤ maxTimestamp then some n else none
  | .bool b => some (if b then 1 else 0)
  | _ => none

/-- One element of the list returned by `get_forecast_weather_by_city`. -/
structure ForecastDay where
  date_str : String
  weekday_str : String
  desc : Json
  temp_day : Option Json
  temp_night : Option Json
  temp_min : Option Json
  temp_max : Option Json
  humidity : Option Json
  wind_speed : Json

/-- Per-day field extraction of `get_forecast_weather_by_city`
(src/main.py:389-416), in source order. -/
def extract_day (day_data : Json) : Option ForecastDay := do
  let dt ← pyGetD day_data "dt" (Json.num 0)
  let weather_info ← pyGetD day_data "weather" (Json.arr [Json.obj []])
  let w0 ← pyIndex weather_info 0
  let desc ← pyGetD w0 "description" (Json.str "暂无描述")
  let temp_info ← pyGetD day_data "temp" (Json.obj [])
  let temp_day ← pyGetOpt temp_info "day"
  let temp_night ← pyGetOpt temp_info "night"
  let temp_min ← pyGetOpt temp_info "min"
  let temp_max ← pyGetOpt temp_info "max"
  let humidity ← pyGetOpt day_data "humidity"
  let wind_speed ← pyGetD day_data "speed" (Json.num 0)
  let ts ← pyTimestamp dt
  let day := format_day ts
  pure { date_str := day.1, weekday_str := day.2, desc := desc,
         temp_day := temp_day, temp_night := temp_night, temp_min := temp_min,
         temp_max := temp_max, humidity := humidity, wind_speed := wind_speed }

/-- The `for day_data in slice_days` loop: the first extraction failure
aborts the whole fetch (the exception propagates to the `except`). -/
def extract_days : List Json → Option (List ForecastDay)
  | [] => some []
  | d :: rest =>
    match extract_day d with
    | none => none
    | some r =>
      match extract_days rest with
      | none => none
      | some rs => some (r :: rs)

/-- Body handling of `get_forecast_weather_by_city` on a 200 response
(src/main.py:375-417): read `data.get("list")`; return `None` when it is
falsy or shorter than 2; otherwise drop element 0 (the "today" entry) and
extract each remaining day.  (When the value passing the length check is a
string or dict rather than a list, the slice / per-day `.get` raises, so
the fetch yields `None`; the non-list branches below collapse that.) -/
def extract_forecast (data : Json) : Option (List ForecastDay) :=
  match pyGetOpt data "list" with
  | none => none
  | some daily_opt =>
    match daily_opt with
    | none => none
    | some daily_list =>
      if !pyTruthy daily_list then none
      else
        match pyLen daily_list with
        | none => none
        | some n =>
          if n < 2 then none
          else
            match daily_list with
            | .arr days => extract_days (days.drop 1)
            | _ => none

/-- `get_forecast_weather_by_city` (src/main.py:345-423) with its trace of
HTTP calls: geocoding first, then (only when coordinates were obtained) the
`2.5/forecast/daily` call with `cnt = 4`. -/
def get_forecast_weather_by_city_traced (city : String) (geo fc : HttpOutcome) :
    Option (List ForecastDay) × List NetCall :=
  match get_city_coords geo with
  | none => (none, [NetCall.geocoding city])
  | some _ =>
    (match fc with
     | .failure => none
     | .success status body =>
       if status = 200 then
         match body with
         | none => none
         | some data => extract_forecast data
       else none,
     [NetCall.geocoding city, NetCall.forecastDaily])

/-- Result component of `get_forecast_weather_by_city`. -/
def get_forecast_weather_by_city (city : String) (geo fc : HttpOutcome) :
    Option (List ForecastDay) :=
  (get_forecast_weather_by_city_traced city geo fc).1

/-- A reply emitted to the chat user.  The render collaborator
(`html_render`) is an opaque external service; an image reply is therefore
modelled by the record handed to the template, not by the returned URL. -/
inductive Reply where
  | plain (s : String)
  | imageCurrent (data : CurrentWeather)
  | imageForecast (city : String) (days : List ForecastDay)

/-- Configuration-error reply of the `current` and `forecast` commands
(src/main.py:153,181). -/
def configErrorMsg : String :=
  "未配置 OpenWeatherMap API Key，无法查询天气。请在管理面板中配置后再试。"

/-- Configuration-error reply of the two LLM tools (src/main.py:244,271). -/
def configErrorMsgTool : String := "抱歉，无法查询天气（缺少 API Key）"

/-- Lookup-failure reply of `/weather current` (src/main.py:159). -/
def currentFailMsg (city : String) : String :=
  "查询 [" ++ city ++ "] 的当前天气失败，请稍后再试。"

/-- Lookup-failure reply of `/weather forecast` (src/main.py:187). -/
def forecastFailMsg (city : String) : String :=
  "查询 [" ++ city ++ "] 的未来天气失败，请稍后再试。"

/-- Lookup-failure reply of both LLM tools (src/main.py:250,277). -/
def toolFailMsg (city : String) : String :=
  "查询 [" ++ city ++ "] 天气失败，请稍后再试。"

/-- Fixed reply of `/weather alerts` (src/main.py:207). -/
def alertsUnsupportedMsg : String := "抱歉，当前使用的 2.5 API 不支持天气预警功能。"

/-- `if not city: city = self.default_city` for the commands' optional
argument: `None` and the empty string are falsy. -/
def resolve_city (city : Option String) (default_city : String) : String :=
  match city with
  | none => default_city
  | some c => if c = "" then default_city else c

/-- `if not city: city = self.default_city` for the tools' `str` argument. -/
def resolve_city_str (city : String) (default_city : String) : String :=
  if city = "" then default_city else city

/-- `/weather current` after city resolution (src/main.py:151-164): check
the API key (no network call when absent), fetch, and reply with the
failure text or the rendered record.  Returns the reply and the network
calls issued. -/
def weather_current_core (cfg : Config) (city : String) (geo wx : HttpOutcome) :
    Reply × List NetCall :=
  if cfg.openweather_api_key = "" then (.plain configErrorMsg, [])
  else
    match get_current_weather_by_city_traced city geo wx with
    | (none, calls) => (.plain (currentFailMsg city), calls)
    | (some data, calls) => (.imageCurrent data, calls)

/-- `weather_current` (src/main.py:140-164). -/
def weather_current (cfg : Config) (city : Option String) (geo wx : HttpOutcome) :
    Reply × List NetCall :=
  weather_current_core cfg (resolve_city city cfg.default_city) geo wx

/-- `/weather forecast` after city resolution (src/main.py:179-192). -/
def weather_forecast_core (cfg : Config) (city : String) (geo fc : HttpOutcome) :
    Reply × List NetCall :=
  if cfg.openweather_api_key = "" then (.plain configErrorMsg, [])
  else
    match get_forecast_weather_by_city_traced city geo fc with
    | (none, calls) => (.plain (forecastFailMsg city), calls)
    | (some days, calls) => (.imageForecast city days, calls)

/-- `weather_forecast` (src/main.py:168-192). -/
def weather_forecast (cfg : Config) (city : Option String) (geo fc : HttpOutcome) :
    Reply × List NetCall :=
  weather_forecast_core cfg (resolve_city city cfg.default_city) geo fc

/-- The LLM tool `get_current_weather` after city resolution
(src/main.py:242-254); its fixed messages differ from the command's. -/
def get_current_weather_tool_core (cfg : Config) (city : String) (geo wx : HttpOutcome) :
    Reply × List NetCall :=
  if cfg.openweather_api_key = "" then (.plain configErrorMsgTool, [])
  else
    match get_current_weather_by_city_traced city geo wx with
    | (none, calls) => (.plain (toolFailMsg city), calls)
    | (some data, calls) => (.imageCurrent data, calls)

/-- `get_current_weather_tool` (src/main.py:230-254). -/
def get_current_weather_tool (cfg : Config) (city : String) (geo wx : HttpOutcome) :
    Reply × List NetCall :=
  get_current_weather_tool_core cfg (resolve_city_str city cfg.default_city) geo wx

/-- The LLM tool `get_forecast_weather` after city resolution
(src/main.py:269-281). -/
def get_forecast_weather_tool_core (cfg : Config) (city : String) (geo fc : HttpOutcome) :
    Reply × List NetCall :=
  if cfg.openweather_api_key = "" then (.plain configErrorMsgTool, [])
  else
    match get_forecast_weather_by_city_traced city geo fc with
    | (none, calls) => (.plain (toolFailMsg city), calls)
    | (some days, calls) => (.imageForecast city days, calls)

/-- `get_forecast_weather_tool` (src/main.py:257-281). -/
def get_forecast_weather_tool (cfg : Config) (city : String) (geo fc : HttpOutcome) :
    Reply × List NetCall :=
  get_forecast_weather_tool_core cfg (resolve_city_str city cfg.default_city) geo fc

/-- `weather_alerts` (src/main.py:196-207): the body ignores the city and
the configuration, performs no call, and yields one fixed plain reply. -/
def weather_alerts (_cfg : Config) (_city : Option String) : Reply × List NetCall :=
  (.plain alertsUnsupportedMsg, [])

/-- A "failure-class" HTTP outcome: a raised request exception (timeout,
network error), a non-200 status, or a 200 whose body fails to decode. -/
def badOutcome (o : HttpOutcome) : Prop :=
  o = HttpOutcome.failure ∨
    ∃ status body, o = HttpOutcome.success status body ∧ (status ≠ 200 ∨ body = none)

/-- A successful geocoding outcome (one hit at lat 31, lon 121), used by
the concrete witnesses below. -/
def geoOK : HttpOutcome :=
  HttpOutcome.success 200
    (some (Json.arr [Json.obj [("lat", Json.num 31), ("lon", Json.num 121)]]))

/-- The forecast record produced from an all-defaults day entry `{}`:
`dt` defaults to 0 (1970-01-01, a 周四), every `dict.get` without an
explicit default yields the Python `None`, and the documented fallbacks
fill the rest. -/
def fallbackDay : ForecastDay :=
  { date_str := "1970-01-01", weekday_str := "周四", desc := Json.str "暂无描述",
    temp_day := none, temp_night := none, temp_min := none, temp_max := none,
    humidity := none, wind_speed := Json.num 0 }

/-- A 200 forecast body carrying exactly the requested `cnt = 4` entries. -/
def forecastBody4 : Json :=
  Json.obj [("list", Json.arr [Json.obj [], Json.obj [], Json.obj [], Json.obj []])]

/-- The extraction loop succeeds on every day exactly when it succeeds on
each, and then preserves the number of days. -/
theorem extract_days_length (ds : List Json) :
    ∀ l, extract_days ds = some l → l.length = ds.length := by
  induction ds with
  | nil =>
    intro l h
    simp [extract_days] at h
    simp [← h]
  | cons d rest ih =>
    intro l h
    unfold extract_days at h
    cases hd : extract_day d with
    | none => rw [hd] at h; exact absurd h (by simp)
    | some r =>
      rw [hd] at h
      cases hrest : extract_days rest with
      | none => rw [hrest] at h; exact absurd h (by simp)
      | some rs =>
        rw [hrest] at h
        simp at h
        simp [← h, ih rs hrest]

/-- A successfully extracted forecast keeps at least one day: the length
guard demands at least two raw entries and only the first is dropped. -/
theorem extract_forecast_ne_nil (data : Json) (l : List ForecastDay)
    (h : extract_forecast data = some l) : l ≠ [] := by
  unfold extract_forecast at h
  split at h
  · exact absurd h (by simp)
  · split at h
    · exact absurd h (by simp)
    · split at h
      · exact absurd h (by simp)
      · split at h
        · exact absurd h (by simp)
        · split at h
          · exact absurd h (by simp)
          · split at h
            · rename_i a b c n hn j days hopt htr hLen
              have hdn : days.length = n := by simpa [pyLen] using hLen
              have hlen := extract_days_length _ _ h
              intro hnil
              rw [hnil] at hlen
              simp [List.length_drop] at hlen
              omega
            · exact absurd h (by simp)

/-- Any failure-class outcome makes the geocoding resolver return `None`. -/
theorem coords_none_of_bad (o : HttpOutcome) (h : badOutcome o) :
    get_city_coords o = none := by
  rcases h with rfl | ⟨s, b, rfl, hb⟩
  · rfl
  · rcases hb with hs | rfl
    · simp [get_city_coords, hs]
    · by_cases hs : s = 200
      · subst hs; rfl
      · simp [get_city_coords, hs]

/-- The current-weather fetch issues the geocoding call first and the
`2.5/weather` call exactly when coordinates were obtained. -/
theorem current_traced_calls (city : String) (geo wx : HttpOutcome) :
    (get_current_weather_by_city_traced city geo wx).2 =
      if (get_city_coords geo).isSome then [NetCall.geocoding city, NetCall.currentWeather]
      else [NetCall.geocoding city] := by
  unfold get_current_weather_by_city_traced
  cases get_city_coords geo <;> simp

/-- The forecast fetch issues the geocoding call first and the
`2.5/forecast/daily` call exactly when coordinates were obtained. -/
theorem forecast_traced_calls (city : String) (geo fc : HttpOutcome) :
    (get_forecast_weather_by_city_traced city geo fc).2 =
      if (get_city_coords geo).isSome then [NetCall.geocoding city, NetCall.forecastDaily]
      else [NetCall.geocoding city] := by
  unfold get_forecast_weather_by_city_traced
  cases get_city_coords geo <;> simp

/-- With a configured key, the `current` handler issues exactly the calls
of its fetcher. -/
theorem weather_current_core_calls (cfg : Config) (city : String) (geo wx : HttpOutcome)
    (hkey : cfg.openweather_api_key ≠ "") :
    (weather_current_core cfg city geo wx).2 =
      (get_current_weather_by_city_traced city geo wx).2 := by
  unfold weather_current_core
  rw [if_neg hkey]
  cases h : get_current_weather_by_city_traced city geo wx with
  | mk r calls => cases r <;> rfl

/-- With a configured key, the `forecast` handler issues exactly the calls
of its fetcher. -/
theorem weather_forecast_core_calls (cfg : Config) (city : String) (geo fc : HttpOutcome)
    (hkey : cfg.openweather_api_key ≠ "") :
    (weather_forecast_core cfg city geo fc).2 =
      (get_forecast_weather_by_city_traced city geo fc).2 := by
  unfold weather_forecast_core
  rw [if_neg hkey]
  cases h : get_forecast_weather_by_city_traced city geo fc with
  | mk r calls => cases r <;> rfl

/-- C2: for every non-200 upstream status, network failure (including a
timeout), or malformed JSON body, each fetch operation
(`get_current_weather_by_city`, `get_forecast_weather_by_city`,
`get_city_coords`) returns the uniform no-data signal `none`; the
embedding is total, reflecting that the `try/except` of each fetcher lets
no exception past the client boundary. -/
theorem fetch_none_on_failure (city : String) (geo o : HttpOutcome)
    (h : badOutcome o) :
    get_current_weather_by_city city geo o = none ∧
    get_forecast_weather_by_city city geo o = none ∧
    get_city_coords o = none := by
  refine ⟨?_, ?_, coords_none_of_bad o h⟩
  · show (get_current_weather_by_city_traced city geo o).1 = none
    unfold get_current_weather_by_city_traced
    cases hg : get_city_coords geo with
    | none => rfl
    | some c =>
      rcases h with rfl | ⟨s, b, rfl, hb⟩
      · rfl
      · show (if s = 200 then _ else none) = none
        rcases hb with hs | rfl
        · rw [if_neg hs]
        · split <;> rfl
  · show (get_forecast_weather_by_city_traced city geo o).1 = none
    unfold get_forecast_weather_by_city_traced
    cases hg : get_city_coords geo with
    | none => rfl
    | some c =>
      rcases h with rfl | ⟨s, b, rfl, hb⟩
      · rfl
      · show (if s = 200 then _ else none) = none
        rcases hb with hs | rfl
        · rw [if_neg hs]
        · split <;> rfl

/-- Witness for C2 at a concrete failure: a raised request exception
(timeout) on the weather call of city 上海. -/
theorem fetch_none_on_failure_witness :
    badOutcome HttpOutcome.failure ∧
    get_current_weather_by_city "上海" geoOK HttpOutcome.failure = none ∧
    get_forecast_weather_by_city "上海" geoOK HttpOutcome.failure = none ∧
    get_city_coords HttpOutcome.failure = none :=
  ⟨Or.inl rfl,
   (fetch_none_on_failure "上海" geoOK HttpOutcome.failure (Or.inl rfl)).1,
   (fetch_none_on_failure "上海" geoOK HttpOutcome.failure (Or.inl rfl)).2.1,
   (fetch_none_on_failure "上海" geoOK HttpOutcome.failure (Or.inl rfl)).2.2⟩

/-- C5: when the API credential is the empty string, the `current` and
`forecast` commands and both LLM tools reply with their fixed
configuration-error message and issue no network call, for every input
city.  (The commands share one fixed message, the two LLM tools another.) -/
theorem config_error_short_circuits (cfg : Config) (cityArg : Option String)
    (cityStr : String) (geo wx fc : HttpOutcome)
    (hkey : cfg.openweather_api_key = "") :
    weather_current cfg cityArg geo wx = (Reply.plain configErrorMsg, []) ∧
    weather_forecast cfg cityArg geo fc = (Reply.plain configErrorMsg, []) ∧
    get_current_weather_tool cfg cityStr geo wx = (Reply.plain configErrorMsgTool, []) ∧
    get_forecast_weather_tool cfg cityStr geo fc = (Reply.plain configErrorMsgTool, []) := by
  unfold weather_current weather_current_core weather_forecast weather_forecast_core
    get_current_weather_tool get_current_weather_tool_core
    get_forecast_weather_tool get_forecast_weather_tool_core
  simp [hkey]

/-- Witness for C5: unconfigured key, omitted city for the commands, city
上海 for the tools, oracle outcomes arbitrary (here: failures). -/
theorem config_error_short_circuits_witness :
    (Config.mk "" "北京").openweather_api_key = "" ∧
    weather_current (Config.mk "" "北京") none HttpOutcome.failure HttpOutcome.failure =
      (Reply.plain configErrorMsg, []) ∧
    weather_forecast (Config.mk "" "北京") none HttpOutcome.failure HttpOutcome.failure =
      (Reply.plain configErrorMsg, []) ∧
    get_current_weather_tool (Config.mk "" "北京") "上海" HttpOutcome.failure HttpOutcome.failure =
      (Reply.plain configErrorMsgTool, []) ∧
    get_forecast_weather_tool (Config.mk "" "北京") "上海" HttpOutcome.failure HttpOutcome.failure =
      (Reply.plain configErrorMsgTool, []) :=
  ⟨rfl,
   (config_error_short_circuits (Config.mk "" "北京") none "上海"
     HttpOutcome.failure HttpOutcome.failure HttpOutcome.failure rfl).1,
   (config_error_short_circuits (Config.mk "" "北京") none "上海"
     HttpOutcome.failure HttpOutcome.failure HttpOutcome.failure rfl).2.1,
   (config_error_short_circuits (Config.mk "" "北京") none "上海"
     HttpOutcome.failure HttpOutcome.failure HttpOutcome.failure rfl).2.2.1,
   (config_error_short_circuits (Config.mk "" "北京") none "上海"
     HttpOutcome.failure HttpOutcome.failure HttpOutcome.failure rfl).2.2.2⟩

/-- C6: `get_city_coords` returns the `(lat, lon)` pair taken from the
first element of a non-empty geocoding result list, and the not-found
signal `none` when the result list is empty or the call fails in any way. -/
theorem city_coords_first_element (o : HttpOutcome) (first : Json)
    (rest : List Json) (lat lon : Json)
    (hlat : pySubscript first "lat" = some lat)
    (hlon : pySubscript first "lon" = some lon)
    (hbad : badOutcome o) :
    get_city_coords (HttpOutcome.success 200 (some (Json.arr (first :: rest)))) =
      some (lat, lon) ∧
    get_city_coords (HttpOutcome.success 200 (some (Json.arr []))) = none ∧
    get_city_coords o = none := by
  refine ⟨?_, rfl, coords_none_of_bad o hbad⟩
  have htr : pyTruthy (Json.arr (first :: rest)) = true := by simp [pyTruthy]
  simp [get_city_coords, htr, pyIndex, hlat, hlon]

/-- Witness for C6 at the concrete response `[{"lat": 31, "lon": 121}]`
and, for the failure leg, an HTTP 404. -/
theorem city_coords_first_element_witness :
    pySubscript (Json.obj [("lat", Json.num 31), ("lon", Json.num 121)]) "lat" =
      some (Json.num 31) ∧
    badOutcome (HttpOutcome.success 404 (some (Json.obj []))) ∧
    get_city_coords (HttpOutcome.success 200 (some (Json.arr
        [Json.obj [("lat", Json.num 31), ("lon", Json.num 121)]]))) =
      some (Json.num 31, Json.num 121) ∧
    get_city_coords (HttpOutcome.success 200 (some (Json.arr []))) = none ∧
    get_city_coords (HttpOutcome.success 404 (some (Json.obj []))) = none :=
  ⟨rfl, Or.inr ⟨404, some (Json.obj []), rfl, Or.inl (by decide)⟩,
   (city_coords_first_element (HttpOutcome.success 404 (some (Json.obj [])))
      (Json.obj [("lat", Json.num 31), ("lon", Json.num 121)]) [] (Json.num 31) (Json.num 121)
      rfl rfl (Or.inr ⟨404, some (Json.obj []), rfl, Or.inl (by decide)⟩)).1,
   (city_coords_first_element (HttpOutcome.success 404 (some (Json.obj [])))
      (Json.obj [("lat", Json.num 31), ("lon", Json.num 121)]) [] (Json.num 31) (Json.num 121)
      rfl rfl (Or.inr ⟨404, some (Json.obj []), rfl, Or.inl (by decide)⟩)).2.1,
   (city_coords_first_element (HttpOutcome.success 404 (some (Json.obj [])))
      (Json.obj [("lat", Json.num 31), ("lon", Json.num 121)]) [] (Json.num 31) (Json.num 121)
      rfl rfl (Or.inr ⟨404, some (Json.obj []), rfl, Or.inl (by decide)⟩)).2.2⟩

/-- C8: the `alerts` command replies with the same fixed
unsupported-feature message for every configuration and every city
argument — including an omitted or empty one — and issues no upstream
call. -/
theorem alerts_always_unsupported (cfg : Config) (city : Option String) :
    weather_alerts cfg city = (Reply.plain alertsUnsupportedMsg, []) ∧
    weather_alerts cfg none = (Reply.plain alertsUnsupportedMsg, []) ∧
    weather_alerts cfg (some "") = (Reply.plain alertsUnsupportedMsg, []) :=
  ⟨rfl, rfl, rfl⟩

/-- C1: on a 200 forecast response whose daily `"list"` has at least 2
entries, each remaining entry extracting per the upstream day schema, the
fetch drops element 0 (the "today" entry) and returns the remaining
extracted entries in order; when the upstream returns exactly the
requested `cnt = 4` entries the result has exactly `cnt - 1 = 3` days. -/
theorem forecast_drops_today (city : String) (geo : HttpOutcome) (data : Json)
    (days : List Json) (l : List ForecastDay)
    (hgeo : (get_city_coords geo).isSome = true)
    (hlist : pyGetOpt data "list" = some (some (Json.arr days)))
    (hlen : 2 ≤ days.length)
    (hext : extract_days (days.drop 1) = some l) :
    get_forecast_weather_by_city city geo (HttpOutcome.success 200 (some data)) = some l ∧
    l.length = days.length - 1 ∧
    (days.length = 4 → l.length = 3) := by
  have hlength := extract_days_length _ _ hext
  have hl1 : l.length = days.length - 1 := by
    rw [hlength]; simp [List.length_drop]
  have hfc : extract_forecast data = some l := by
    have htr : pyTruthy (Json.arr days) = true := by
      cases days with
      | nil => simp at hlen
      | cons a rest => simp [pyTruthy]
    have hn2 : ¬ (days.length < 2) := by omega
    have hext' : extract_days days.tail = some l := by
      rw [← List.drop_one]; exact hext
    simp [extract_forecast, hlist, htr, pyLen, hn2, hext']
  refine ⟨?_, hl1, fun h4 => by omega⟩
  obtain ⟨c, hc⟩ := Option.isSome_iff_exists.mp hgeo
  show (get_forecast_weather_by_city_traced city geo _).1 = some l
  unfold get_forecast_weather_by_city_traced
  rw [hc]
  simpa using hfc

/-- Witness for C1: a 200 body with exactly `cnt = 4` day entries yields
the 3 extracted days after the "today" entry. -/
theorem forecast_drops_today_witness :
    (get_city_coords geoOK).isSome = true ∧
    pyGetOpt forecastBody4 "list" =
      some (some (Json.arr [Json.obj [], Json.obj [], Json.obj [], Json.obj []])) ∧
    2 ≤ ([Json.obj [], Json.obj [], Json.obj [], Json.obj []] : List Json).length ∧
    extract_days (([Json.obj [], Json.obj [], Json.obj [], Json.obj []] : List Json).drop 1) =
      some [fallbackDay, fallbackDay, fallbackDay] ∧
    get_forecast_weather_by_city "北京" geoOK (HttpOutcome.success 200 (some forecastBody4)) =
      some [fallbackDay, fallbackDay, fallbackDay] ∧
    ([fallbackDay, fallbackDay, fallbackDay] : List ForecastDay).length = 3 :=
  ⟨rfl, rfl, by simp, rfl,
   (forecast_drops_today "北京" geoOK forecastBody4
      [Json.obj [], Json.obj [], Json.obj [], Json.obj []]
      [fallbackDay, fallbackDay, fallbackDay] rfl rfl (by simp) rfl).1,
   rfl⟩

/-- C10: a successful (non-`none`) forecast result is never the empty
list; on a 200 response whose daily `"list"` is missing, empty, or a
single entry, the fetch returns the no-data signal instead, so a rendered
forecast always holds at least one day record. -/
theorem forecast_success_nonempty (city : String) (geo fc : HttpOutcome)
    (l : List ForecastDay) (data dayEntry : Json) :
    (get_forecast_weather_by_city city geo fc = some l → l ≠ []) ∧
    (pyGetOpt data "list" = some none →
      get_forecast_weather_by_city city geo (HttpOutcome.success 200 (some data)) = none) ∧
    (pyGetOpt data "list" = some (some (Json.arr [])) →
      get_forecast_weather_by_city city geo (HttpOutcome.success 200 (some data)) = none) ∧
    (pyGetOpt data "list" = some (some (Json.arr [dayEntry])) →
      get_forecast_weather_by_city city geo (HttpOutcome.success 200 (some data)) = none) := by
  have hnone : ∀ d : Json, extract_forecast d = none →
      get_forecast_weather_by_city city geo (HttpOutcome.success 200 (some d)) = none := by
    intro d hd
    unfold get_forecast_weather_by_city get_forecast_weather_by_city_traced
    cases get_city_coords geo <;> simp [hd]
  refine ⟨?_, ?_, ?_, ?_⟩
  · intro hsome
    unfold get_forecast_weather_by_city get_forecast_weather_by_city_traced at hsome
    cases hg : get_city_coords geo with
    | none => rw [hg] at hsome; exact absurd hsome (by simp)
    | some c =>
      rw [hg] at hsome
      cases fc with
      | failure => exact absurd hsome (by simp)
      | success s b =>
        by_cases hs : s = 200
        · subst hs
          cases b with
          | none => exact absurd hsome (by simp)
          | some dataBody =>
            simp at hsome
            exact extract_forecast_ne_nil dataBody l hsome
        · simp [hs] at hsome
  · intro h
    exact hnone data (by simp [extract_forecast, h])
  · intro h
    exact hnone data (by simp [extract_forecast, h, pyTruthy])
  · intro h
    exact hnone data (by simp [extract_forecast, h, pyTruthy, pyLen])

/-- Witness for C10: a 4-entry list succeeds with 3 (≠ 0) days; a
single-entry list yields the no-data signal. -/
theorem forecast_success_nonempty_witness :
    get_forecast_weather_by_city "北京" geoOK (HttpOutcome.success 200 (some forecastBody4)) =
      some [fallbackDay, fallbackDay, fallbackDay] ∧
    ([fallbackDay, fallbackDay, fallbackDay] : List ForecastDay) ≠ [] ∧
    pyGetOpt (Json.obj [("list", Json.arr [Json.obj []])]) "list" =
      some (some (Json.arr [Json.obj []])) ∧
    get_forecast_weather_by_city "北京" geoOK
      (HttpOutcome.success 200 (some (Json.obj [("list", Json.arr [Json.obj []])]))) = none :=
  ⟨rfl,
   (forecast_success_nonempty "北京" geoOK (HttpOutcome.success 200 (some forecastBody4))
      [fallbackDay, fallbackDay, fallbackDay]
      (Json.obj [("list", Json.arr [Json.obj []])]) (Json.obj [])).1 rfl,
   rfl,
   (forecast_success_nonempty "北京" geoOK (HttpOutcome.success 200 (some forecastBody4))
      [fallbackDay, fallbackDay, fallbackDay]
      (Json.obj [("list", Json.arr [Json.obj []])]) (Json.obj [])).2.2.2 rfl⟩

/-- The 200 current-weather body of the spec's Shanghai example. -/
def shanghaiBody : Json :=
  Json.obj [("main", Json.obj [("temp", Json.num 22), ("feels_like", Json.num 21),
                               ("humidity", Json.num 60)]),
            ("weather", Json.arr [Json.obj [("description", Json.str "clear")]]),
            ("wind", Json.obj [("speed", Json.num 3)])]

/-- C3: on a successful 200 current-weather response the record's
description defaults to the fixed placeholder 暂无描述 when the upstream
description is absent, and the numeric fields (`temp`, `feels_like`,
`humidity`, `wind_speed`) pass through unchanged from the body; for city
Shanghai with the spec's example body the fetch returns exactly
`{city: Shanghai, desc: "clear", temp: 22, feels_like: 21, humidity: 60,
wind_speed: 3}`. -/
theorem current_fallbacks_and_passthrough :
    (∀ (city : String) (geo : HttpOutcome) (data : Json)
        (mainObj windObj : List (String × Json)),
      (get_city_coords geo).isSome = true →
      pyGetD data "main" (Json.obj []) = some (Json.obj mainObj) →
      pyGetD data "wind" (Json.obj []) = some (Json.obj windObj) →
      pyGetOpt data "weather" = some none →
      get_current_weather_by_city city geo (HttpOutcome.success 200 (some data)) =
        some { city := city, desc := Json.str "暂无描述",
               temp := lookupField mainObj "temp",
               feels_like := lookupField mainObj "feels_like",
               humidity := lookupField mainObj "humidity",
               wind_speed := (lookupField windObj "speed").getD (Json.num 0) }) ∧
    get_current_weather_by_city "Shanghai" geoOK
        (HttpOutcome.success 200 (some shanghaiBody)) =
      some { city := "Shanghai", desc := Json.str "clear", temp := some (Json.num 22),
             feels_like := some (Json.num 21), humidity := some (Json.num 60),
             wind_speed := Json.num 3 } := by
  constructor
  · intro city geo data mainObj windObj hgeo hmain hwind hweather
    obtain ⟨c, hc⟩ := Option.isSome_iff_exists.mp hgeo
    cases data with
    | null => simp [pyGetD] at hmain
    | bool b => simp [pyGetD] at hmain
    | num n => simp [pyGetD] at hmain
    | str s => simp [pyGetD] at hmain
    | arr xs => simp [pyGetD] at hmain
    | obj fs =>
      have hwa : lookupField fs "weather" = none := by simpa [pyGetOpt] using hweather
      have hm : (lookupField fs "main").getD (Json.obj []) = Json.obj mainObj := by
        simpa [pyGetD] using hmain
      have hw : (lookupField fs "wind").getD (Json.obj []) = Json.obj windObj := by
        simpa [pyGetD] using hwind
      show (get_current_weather_by_city_traced city geo _).1 = _
      unfold get_current_weather_by_city_traced
      rw [hc]
      simp [extract_current, pyGetD, pyGetOpt, pyIndex, lookupField, hwa, hm, hw]
  · rfl

/-- Witness for C3's general part: a body whose `weather` and `wind` keys
are absent and whose `main` carries only `temp = 5`. -/
theorem current_fallbacks_and_passthrough_witness :
    (get_city_coords geoOK).isSome = true ∧
    pyGetD (Json.obj [("main", Json.obj [("temp", Json.num 5)])]) "main" (Json.obj []) =
      some (Json.obj [("temp", Json.num 5)]) ∧
    pyGetD (Json.obj [("main", Json.obj [("temp", Json.num 5)])]) "wind" (Json.obj []) =
      some (Json.obj []) ∧
    pyGetOpt (Json.obj [("main", Json.obj [("temp", Json.num 5)])]) "weather" = some none ∧
    get_current_weather_by_city "Paris" geoOK
        (HttpOutcome.success 200 (some (Json.obj [("main", Json.obj [("temp", Json.num 5)])]))) =
      some { city := "Paris", desc := Json.str "暂无描述", temp := some (Json.num 5),
             feels_like := none, humidity := none, wind_speed := Json.num 0 } :=
  ⟨rfl, rfl, rfl, rfl,
   current_fallbacks_and_passthrough.1 "Paris" geoOK
     (Json.obj [("main", Json.obj [("temp", Json.num 5)])])
     [("temp", Json.num 5)] [] rfl rfl rfl rfl⟩

/-- C4 counterexample: a 200 current-weather response whose description
field is missing because `weather` is present as an *empty* array.  The
call returns the no-data signal `none` instead of a record with the
placeholder: `weather_arr[0]` raises `IndexError`, so the claim's "a
missing field is substituted rather than the call failing" does not hold
on every 200 response. -/
theorem current_fails_on_empty_weather_array :
    get_current_weather_by_city "Shanghai" geoOK
      (HttpOutcome.success 200 (some (Json.obj [("weather", Json.arr [])]))) = none := rfl

/-- C4 (amended): on a 200 response, every extracted field that is absent
as a *key* is substituted with its documented fallback — the placeholder
description, `0` for the wind speed, and the Python `None` for the fields
read by the one-argument `dict.get` (`temp`, `feels_like`, `humidity` and
the per-day temperatures) — and the call still returns a record; shown
with every extracted key absent, for the current fetch and for the
forecast's per-day extraction.  (When a field is present with an
unexpected shape — e.g. `weather` bound to an empty array — the call
returns the no-data signal instead; see the counterexample.) -/
theorem missing_fields_get_fallbacks (city : String) (geo : HttpOutcome)
    (hgeo : (get_city_coords geo).isSome = true) :
    get_current_weather_by_city city geo (HttpOutcome.success 200 (some (Json.obj []))) =
      some { city := city, desc := Json.str "暂无描述", temp := none, feels_like := none,
             humidity := none, wind_speed := Json.num 0 } ∧
    extract_day (Json.obj []) = some fallbackDay := by
  obtain ⟨c, hc⟩ := Option.isSome_iff_exists.mp hgeo
  constructor
  · show (get_current_weather_by_city_traced city geo _).1 = _
    unfold get_current_weather_by_city_traced
    rw [hc]
    rfl
  · rfl

/-- Witness for C4 (amended) at city X with the all-keys-absent body. -/
theorem missing_fields_get_fallbacks_witness :
    (get_city_coords geoOK).isSome = true ∧
    get_current_weather_by_city "X" geoOK (HttpOutcome.success 200 (some (Json.obj []))) =
      some { city := "X", desc := Json.str "暂无描述", temp := none, feels_like := none,
             humidity := none, wind_speed := Json.num 0 } ∧
    extract_day (Json.obj []) = some fallbackDay :=
  ⟨rfl, (missing_fields_get_fallbacks "X" geoOK rfl).1,
   (missing_fields_get_fallbacks "X" geoOK rfl).2⟩

/-- C7: with a configured key, every `current`/`forecast` execution issues
the geocoding call first; the weather endpoint is called exactly in the
executions where geocoding succeeded, and a geocoding failure
short-circuits the command with the user-visible failure reply and no
weather call (the model has no fallback coordinates to take). -/
theorem geocoding_before_weather (cfg : Config) (city : String)
    (geo wx fc : HttpOutcome) (hkey : cfg.openweather_api_key ≠ "") :
    (get_city_coords geo = none →
      weather_current_core cfg city geo wx =
        (Reply.plain (currentFailMsg city), [NetCall.geocoding city]) ∧
      weather_forecast_core cfg city geo fc =
        (Reply.plain (forecastFailMsg city), [NetCall.geocoding city])) ∧
    (NetCall.currentWeather ∈ (weather_current_core cfg city geo wx).2 →
      (weather_current_core cfg city geo wx).2 =
        [NetCall.geocoding city, NetCall.currentWeather] ∧
      get_city_coords geo ≠ none) ∧
    (NetCall.forecastDaily ∈ (weather_forecast_core cfg city geo fc).2 →
      (weather_forecast_core cfg city geo fc).2 =
        [NetCall.geocoding city, NetCall.forecastDaily] ∧
      get_city_coords geo ≠ none) := by
  refine ⟨?_, ?_, ?_⟩
  · intro hg
    have htc : get_current_weather_by_city_traced city geo wx =
        (none, [NetCall.geocoding city]) := by
      unfold get_current_weather_by_city_traced; rw [hg]
    have htf : get_forecast_weather_by_city_traced city geo fc =
        (none, [NetCall.geocoding city]) := by
      unfold get_forecast_weather_by_city_traced; rw [hg]
    constructor
    · unfold weather_current_core
      rw [if_neg hkey, htc]
    · unfold weather_forecast_core
      rw [if_neg hkey, htf]
  · intro hmem
    rw [weather_current_core_calls cfg city geo wx hkey, current_traced_calls] at hmem ⊢
    cases hg : (get_city_coords geo).isSome with
    | false => rw [hg] at hmem; simp at hmem
    | true =>
      exact ⟨by simp, Option.ne_none_iff_isSome.mpr hg⟩
  · intro hmem
    rw [weather_forecast_core_calls cfg city geo fc hkey, forecast_traced_calls] at hmem ⊢
    cases hg : (get_city_coords geo).isSome with
    | false => rw [hg] at hmem; simp at hmem
    | true =>
      exact ⟨by simp, Option.ne_none_iff_isSome.mpr hg⟩

/-- Witness for C7: configured key, a geocoding failure for city 上海
short-circuits both commands with the failure reply and only the
geocoding call in the trace. -/
theorem geocoding_before_weather_witness :
    (Config.mk "k" "北京").openweather_api_key ≠ "" ∧
    get_city_coords HttpOutcome.failure = none ∧
    weather_current_core (Config.mk "k" "北京") "上海"
        HttpOutcome.failure HttpOutcome.failure =
      (Reply.plain (currentFailMsg "上海"), [NetCall.geocoding "上海"]) ∧
    weather_forecast_core (Config.mk "k" "北京") "上海"
        HttpOutcome.failure HttpOutcome.failure =
      (Reply.plain (forecastFailMsg "上海"), [NetCall.geocoding "上海"]) :=
  ⟨by simp, rfl,
   ((geocoding_before_weather (Config.mk "k" "北京") "上海"
       HttpOutcome.failure HttpOutcome.failure HttpOutcome.failure (by simp)).1 rfl).1,
   ((geocoding_before_weather (Config.mk "k" "北京") "上海"
       HttpOutcome.failure HttpOutcome.failure HttpOutcome.failure (by simp)).1 rfl).2⟩

/-- C9: an omitted city argument — and an empty one, which Python's
truthiness test treats the same way — makes every entry point query the
configured default city, while a supplied non-empty city is used as
given: each handler is its post-resolution core applied to the resolved
city, and with a configured key the geocoding call issued names exactly
that city. -/
theorem default_city_resolution (cfg : Config) (arg : Option String) (c : String)
    (geo wx fc : HttpOutcome) (hc : c ≠ "") :
    resolve_city none cfg.default_city = cfg.default_city ∧
    resolve_city (some c) cfg.default_city = c ∧
    resolve_city_str "" cfg.default_city = cfg.default_city ∧
    resolve_city_str c cfg.default_city = c ∧
    weather_current cfg arg geo wx =
      weather_current_core cfg (resolve_city arg cfg.default_city) geo wx ∧
    weather_forecast cfg arg geo fc =
      weather_forecast_core cfg (resolve_city arg cfg.default_city) geo fc ∧
    get_current_weather_tool cfg c geo wx =
      get_current_weather_tool_core cfg c geo wx ∧
    get_forecast_weather_tool cfg c geo fc =
      get_forecast_weather_tool_core cfg c geo fc ∧
    (cfg.openweather_api_key ≠ "" →
      NetCall.geocoding (resolve_city arg cfg.default_city) ∈
        (weather_current cfg arg geo wx).2) := by
  refine ⟨rfl, by simp [resolve_city, hc], rfl, by simp [resolve_city_str, hc], rfl, rfl,
    by simp [get_current_weather_tool, resolve_city_str, hc],
    by simp [get_forecast_weather_tool, resolve_city_str, hc], ?_⟩
  intro hkey
  show NetCall.geocoding _ ∈
    (weather_current_core cfg (resolve_city arg cfg.default_city) geo wx).2
  rw [weather_current_core_calls cfg _ geo wx hkey, current_traced_calls]
  cases (get_city_coords geo).isSome <;> simp

/-- Witness for C9: default city 北京 with the argument omitted, supplied
city 上海 otherwise. -/
theorem default_city_resolution_witness :
    ("上海" : String) ≠ "" ∧
    resolve_city none "北京" = "北京" ∧
    resolve_city (some "上海") "北京" = "上海" ∧
    resolve_city_str "" "北京" = "北京" ∧
    resolve_city_str "上海" "北京" = "上海" :=
  ⟨by simp,
   (default_city_resolution (Config.mk "k" "北京") none "上海"
      HttpOutcome.failure HttpOutcome.failure HttpOutcome.failure (by simp)).1,
   (default_city_resolution (Config.mk "k" "北京") none "上海"
      HttpOutcome.failure HttpOutcome.failure HttpOutcome.failure (by simp)).2.1,
   (default_city_resolution (Config.mk "k" "北京") none "上海"
      HttpOutcome.failure HttpOutcome.failure HttpOutcome.failure (by simp)).2.2.1,
   (default_city_resolution (Config.mk "k" "北京") none "上海"
      HttpOutcome.failure HttpOutcome.failure HttpOutcome.failure (by simp)).2.2.2.1⟩
